/-
Verification of the veeam-audit backup-storage audit dashboard.

The repository ships a React/TypeScript frontend (under src/frontend and
the unnamed page modules); the FastAPI pipeline backend (Metrics Computer,
Anomaly Detector, persistence) is not part of the checked-in sources, so
those components are modelled from the specification where noted.  All
JavaScript numbers are embedded as rationals (ℚ); JavaScript property
access on typed records is embedded as a total lookup returning an
optional value, `none` standing for `undefined`/`null`.
-/
import Mathlib

namespace VeeamAudit

/-! ### JavaScript value embedding -/

/-- A JavaScript value as it appears in the frontend data records:
either a number (embedded as ℚ) or a string. -/
inductive JsValue where
  | num (q : ℚ)
  | str (s : String)
deriving DecidableEq

/-- JavaScript property access yields `undefined` (here `none`) for a
field that is absent from the record's declared type; `null`-valued
fields are also embedded as `none` (the frontend only tests them with
loose equality, which identifies the two). -/
abbrev JsProp := Option JsValue

/-- The string conversion applied by the Issues page before comparing,
mirroring JavaScript String(x): numbers print in decimal, strings pass
through. -/
def jsToString : JsValue → String
  | .num q => if q.den = 1 then toString q.num else toString q
  | .str s => s

/-- String.prototype.localeCompare embedded as lexicographic comparison
(the default collation on the code-point order used by the page). -/
def localeCompare (s t : String) : Int :=
  if s < t then -1 else if s = t then 0 else 1

/-! ### Spec-modelled metric formulas (Metrics Computer)

The pipeline sources (pipeline.py / process_and_store.py) are not in the
repository checkout; the formulas below are modelled from the spec. -/

/-- Modelled from the spec: the missing Metrics Computer's discrepancy
formula, `abs(veeam_tb − wasabi_active_tb) / max(veeam_tb,
wasabi_active_tb, epsilon) * 100`. -/
def discrepancyPct (eps veeam_tb wasabi_active_tb : ℚ) : ℚ :=
  |veeam_tb - wasabi_active_tb| / max veeam_tb (max wasabi_active_tb eps) * 100

/-- Modelled from the spec: the missing Metrics Computer's cost formula,
`cost = storage_tb * cost_per_tb * (1 + tax_rate)`. -/
def cost (storage_tb cost_per_tb tax_rate : ℚ) : ℚ :=
  storage_tb * cost_per_tb * (1 + tax_rate)

/-- Modelled from the spec: the missing Metrics Computer's success rate,
`successful_jobs / total_jobs * 100` when `total_jobs > 0`, else null. -/
def successRatePct (successful_jobs total_jobs : ℕ) : Option ℚ :=
  if total_jobs > 0 then
    some ((successful_jobs : ℚ) / (total_jobs : ℚ) * 100)
  else none

/-- Modelled from the spec: the missing Metrics Computer's per-BDR disk
free percentage `disk_free_tb / (disk_free_tb + backup_size_tb) * 100`,
guarded to 0 when the denominator is 0. -/
def diskFreePct (disk_free_tb backup_size_tb : ℚ) : ℚ :=
  if disk_free_tb + backup_size_tb = 0 then 0
  else disk_free_tb / (disk_free_tb + backup_size_tb) * 100

/-! ### Spec-modelled site-code extraction -/

/-- Modelled from the spec: the name tokens that terminate the site-code
prefix of a server or bucket name (the documented examples force BDR and
CORP to be recognized). -/
def suffixTokens : List String := ["BDR", "CORP"]

/-- Does the character list start with one of the known suffix tokens? -/
def startsWithSuffixToken (cs : List Char) : Bool :=
  suffixTokens.any (fun t => t.toList.isPrefixOf cs)

/-- Leading alphabetic run of a name, cut at the first non-alphabetic
character, first digit, or known suffix token. -/
def siteCodeChars : List Char → List Char
  | [] => []
  | c :: rest =>
    if ¬ c.isAlpha ∨ c.isDigit ∨ startsWithSuffixToken (c :: rest) then []
    else c :: siteCodeChars rest

/-- Modelled from the spec: the missing single shared site-code
extraction function — take the leading alphabetic prefix before the
first digit or known suffix token, falling back to the full name when no
pattern matches. Total by construction. -/
def extractSiteCode (name : String) : String :=
  let code := siteCodeChars name.toList
  if code.isEmpty then name else String.mk code

/-! ### Data model

`Settings` mirrors the Settings interface of src/frontend/src/types/index.ts;
the record types mirror the SiteMetric/BdrMetric/BucketMetric/DailySummary
interfaces there (dropping the database id and the display-only site_name),
with report_date embedded as an integer day. -/

structure Settings where
  wasabi_cost_per_tb : ℚ
  sales_tax_rate : ℚ
  discrepancy_threshold_pct : ℚ
  low_disk_threshold_pct : ℚ
  deleted_ratio_threshold : ℚ
deriving DecidableEq

/-- Modelled from the spec: the epsilon guarding the missing pipeline's
divisions. -/
def epsilon : ℚ := 1 / 10000

/-- Bytes per terabyte used when converting raw byte counts. -/
def bytesPerTb : ℚ := 1000000000000

/-- A raw BDR capacity row from the Ingestor (server name, used/free bytes). -/
structure BdrRaw where
  server : String
  used_bytes : ℚ
  free_bytes : ℚ
deriving DecidableEq

/-- A raw Veeam job row from the Ingestor. -/
structure JobRaw where
  server : String
  job_type : String
  outcome : String
deriving DecidableEq

/-- A raw Wasabi bucket utilization row from the Ingestor. -/
structure BucketRaw where
  bucket : String
  active_bytes : ℚ
  deleted_bytes : ℚ
deriving DecidableEq

/-- The three record sets the Ingestor delivers for one report date. -/
structure RawInputs where
  bdr_rows : List BdrRaw
  job_rows : List JobRaw
  bucket_rows : List BucketRaw
deriving DecidableEq

structure SiteRecord where
  report_date : Int
  site_code : String
  veeam_tb : ℚ
  wasabi_active_tb : ℚ
  wasabi_deleted_tb : ℚ
  discrepancy_pct : ℚ
  success_rate_pct : Option ℚ
  total_jobs : ℕ
  successful_jobs : ℕ
  failed_jobs : ℕ
  warning_jobs : ℕ
  increment_jobs : ℕ
  reverse_increment_jobs : ℕ
  gold_jobs : ℕ
  silver_jobs : ℕ
  bronze_jobs : ℕ
  active_cost : ℚ
  deleted_cost : ℚ
  total_cost : ℚ
deriving DecidableEq

structure BdrRecord where
  report_date : Int
  bdr_server : String
  site_code : String
  backup_size_tb : ℚ
  disk_free_tb : ℚ
  disk_free_pct : ℚ
deriving DecidableEq

structure BucketRecord where
  report_date : Int
  bucket_name : String
  site_code : String
  active_tb : ℚ
  deleted_tb : ℚ
  active_cost : ℚ
  deleted_cost : ℚ
  total_cost : ℚ
deriving DecidableEq

/-- Mirrors the DailySummary interface of src/frontend/src/types/index.ts. -/
structure DailySummary where
  report_date : Int
  veeam_tb : ℚ
  wasabi_active_tb : ℚ
  wasabi_deleted_tb : ℚ
  discrepancy_pct : ℚ
  total_cost : ℚ
  low_disk_count : ℕ
  high_discrepancy_count : ℕ
  high_deleted_count : ℕ
  failed_job_count : ℕ
  warning_job_count : ℕ
  total_jobs : ℕ
  successful_jobs : ℕ
  failed_jobs : ℕ
  warning_jobs : ℕ
deriving DecidableEq

/-- Mirrors the Anomaly interface of src/frontend/src/types/index.ts
(dropping the database id). -/
structure Anomaly where
  report_date : Int
  severity : String
  type_ : String
  metric : Option String
  previous_value : Option ℚ
  current_value : Option ℚ
  change_pct : Option ℚ
  description : Option String
deriving DecidableEq

/-! ### Metrics Computer (spec-modelled) -/

/-- Modelled from the spec: the missing per-bucket derivation — costs
per bucket from Settings, site code via the shared extraction. -/
def mkBucketRecord (cfg : Settings) (date : Int) (r : BucketRaw) : BucketRecord :=
  let active_tb := r.active_bytes / bytesPerTb
  let deleted_tb := r.deleted_bytes / bytesPerTb
  let active_cost := cost active_tb cfg.wasabi_cost_per_tb cfg.sales_tax_rate
  let deleted_cost := cost deleted_tb cfg.wasabi_cost_per_tb cfg.sales_tax_rate
  { report_date := date
    bucket_name := r.bucket
    site_code := extractSiteCode r.bucket
    active_tb, deleted_tb, active_cost, deleted_cost
    total_cost := active_cost + deleted_cost }

/-- Modelled from the spec: the missing per-BDR derivation, site code
via the shared extraction and the guarded disk-free percentage. -/
def mkBdrRecord (date : Int) (r : BdrRaw) : BdrRecord :=
  let backup_size_tb := r.used_bytes / bytesPerTb
  let disk_free_tb := r.free_bytes / bytesPerTb
  { report_date := date
    bdr_server := r.server
    site_code := extractSiteCode r.server
    backup_size_tb, disk_free_tb
    disk_free_pct := diskFreePct disk_free_tb backup_size_tb }

/-- Modelled from the spec: job-type classification from the job-type
string. -/
def countJobType (jobs : List JobRaw) (t : String) : ℕ :=
  (jobs.filter (fun j => j.job_type = t)).length

/-- Modelled from the spec: the missing per-site aggregation for one
site code — sums per source, outcome and type counts, success rate,
discrepancy, and bucket costs summed per site. -/
def mkSiteRecord (cfg : Settings) (date : Int) (code : String)
    (raw : RawInputs) : SiteRecord :=
  let bdrs := raw.bdr_rows.filter (fun r => extractSiteCode r.server = code)
  let jobs := raw.job_rows.filter (fun r => extractSiteCode r.server = code)
  let buckets := (raw.bucket_rows.map (mkBucketRecord cfg date)).filter
    (fun b => b.site_code = code)
  let veeam_tb := (bdrs.map (fun r => r.used_bytes / bytesPerTb)).sum
  let wasabi_active_tb := (buckets.map (·.active_tb)).sum
  let wasabi_deleted_tb := (buckets.map (·.deleted_tb)).sum
  let total_jobs := jobs.length
  let successful_jobs := (jobs.filter (fun j => j.outcome = "Success")).length
  let active_cost := (buckets.map (·.active_cost)).sum
  let deleted_cost := (buckets.map (·.deleted_cost)).sum
  { report_date := date
    site_code := code
    veeam_tb, wasabi_active_tb, wasabi_deleted_tb
    discrepancy_pct := discrepancyPct epsilon veeam_tb wasabi_active_tb
    success_rate_pct := successRatePct successful_jobs total_jobs
    total_jobs, successful_jobs
    failed_jobs := (jobs.filter (fun j => j.outcome = "Failed")).length
    warning_jobs := (jobs.filter (fun j => j.outcome = "Warning")).length
    increment_jobs := countJobType jobs "Incremental"
    reverse_increment_jobs := countJobType jobs "Reverse Incremental"
    gold_jobs := countJobType jobs "Gold"
    silver_jobs := countJobType jobs "Silver"
    bronze_jobs := countJobType jobs "Bronze"
    active_cost, deleted_cost
    total_cost := active_cost + deleted_cost }

/-- The distinct site codes present in any source for the date. -/
def siteCodesOf (raw : RawInputs) : List String :=
  ((raw.bdr_rows.map (fun r => extractSiteCode r.server)) ++
   (raw.job_rows.map (fun r => extractSiteCode r.server)) ++
   (raw.bucket_rows.map (fun r => extractSiteCode r.bucket))).dedup

/-- Modelled from the spec: the missing Metrics Computer's per-site
output for one report date. -/
def computeSiteRecords (cfg : Settings) (date : Int) (raw : RawInputs) :
    List SiteRecord :=
  (siteCodesOf raw).map (fun code => mkSiteRecord cfg date code raw)

/-- The deleted-to-active storage quotient used by the high-deleted
condition. -/
def deletedOverActive (s : SiteRecord) : ℚ :=
  s.wasabi_deleted_tb / max s.wasabi_active_tb epsilon

/-- The all-zero summary a daily aggregation starts from. -/
def emptySummary (date : Int) : DailySummary :=
  { report_date := date
    veeam_tb := 0, wasabi_active_tb := 0, wasabi_deleted_tb := 0
    discrepancy_pct := 0, total_cost := 0
    low_disk_count := 0, high_discrepancy_count := 0, high_deleted_count := 0
    failed_job_count := 0, warning_job_count := 0
    total_jobs := 0, successful_jobs := 0, failed_jobs := 0, warning_jobs := 0 }

/-- One accumulation step of the daily aggregation. -/
def addSite (acc : DailySummary) (r : SiteRecord) : DailySummary :=
  { acc with
    veeam_tb := acc.veeam_tb + r.veeam_tb
    wasabi_active_tb := acc.wasabi_active_tb + r.wasabi_active_tb
    wasabi_deleted_tb := acc.wasabi_deleted_tb + r.wasabi_deleted_tb
    total_cost := acc.total_cost + r.total_cost
    total_jobs := acc.total_jobs + r.total_jobs
    successful_jobs := acc.successful_jobs + r.successful_jobs
    failed_jobs := acc.failed_jobs + r.failed_jobs
    warning_jobs := acc.warning_jobs + r.warning_jobs }

/-- Modelled from the spec: the missing Metrics Computer's DailySummary
— every per-site metric summed across all sites for the date, the
aggregate discrepancy recomputed from the totals, and the counts of
sites/BDRs that trigger the threshold conditions the Anomaly Detector
uses. -/
def computeDailySummary (cfg : Settings) (date : Int)
    (sites : List SiteRecord) (bdrs : List BdrRecord) : DailySummary :=
  let totals := sites.foldl addSite (emptySummary date)
  { totals with
    discrepancy_pct := discrepancyPct epsilon totals.veeam_tb totals.wasabi_active_tb
    low_disk_count :=
      (bdrs.filter (fun b => b.disk_free_pct < cfg.low_disk_threshold_pct)).length
    high_discrepancy_count :=
      (sites.filter (fun s => s.discrepancy_pct > cfg.discrepancy_threshold_pct)).length
    high_deleted_count :=
      (sites.filter (fun s => deletedOverActive s > cfg.deleted_ratio_threshold)).length
    failed_job_count := totals.failed_jobs
    warning_job_count := totals.warning_jobs }

/-! ### Anomaly Detector (spec-modelled) -/

/-- Modelled from the spec: the low-disk rule — below the threshold is
HIGH, below half the threshold is CRITICAL. -/
def lowDiskAnomalies (cfg : Settings) (bdrs : List BdrRecord) : List Anomaly :=
  (bdrs.filter (fun b => b.disk_free_pct < cfg.low_disk_threshold_pct)).map
    (fun b =>
      { report_date := b.report_date
        severity :=
          if b.disk_free_pct < cfg.low_disk_threshold_pct / 2 then "CRITICAL"
          else "HIGH"
        type_ := "low_disk"
        metric := some "disk_free_pct"
        previous_value := none
        current_value := some b.disk_free_pct
        change_pct := none
        description := some b.bdr_server })

/-- Modelled from the spec: the high-discrepancy rule — above the
threshold is HIGH, above twice the threshold is CRITICAL. -/
def highDiscrepancyAnomalies (cfg : Settings) (sites : List SiteRecord) :
    List Anomaly :=
  (sites.filter (fun s => s.discrepancy_pct > cfg.discrepancy_threshold_pct)).map
    (fun s =>
      { report_date := s.report_date
        severity :=
          if s.discrepancy_pct > 2 * cfg.discrepancy_threshold_pct then "CRITICAL"
          else "HIGH"
        type_ := "high_discrepancy"
        metric := some "discrepancy_pct"
        previous_value := none
        current_value := some s.discrepancy_pct
        change_pct := none
        description := some s.site_code })

/-- Modelled from the spec: the high-deleted-ratio rule — above the
threshold is MEDIUM, above twice the threshold is HIGH. -/
def highDeletedAnomalies (cfg : Settings) (sites : List SiteRecord) :
    List Anomaly :=
  (sites.filter (fun s => deletedOverActive s > cfg.deleted_ratio_threshold)).map
    (fun s =>
      { report_date := s.report_date
        severity :=
          if deletedOverActive s > 2 * cfg.deleted_ratio_threshold then "HIGH"
          else "MEDIUM"
        type_ := "high_deleted"
        metric := some "wasabi_deleted_tb"
        previous_value := none
        current_value := some (deletedOverActive s)
        change_pct := none
        description := some s.site_code })

/-- Modelled from the spec: the failed-job-spike rule — no-op without a
prior date; a jump past double the prior count is MEDIUM, past triple is
HIGH. -/
def failedJobSpikeAnomalies (prev : Option DailySummary)
    (curr : DailySummary) : List Anomaly :=
  match prev with
  | none => []
  | some p =>
    if curr.failed_jobs > 2 * p.failed_jobs ∧ curr.failed_jobs > p.failed_jobs + 4 then
      [{ report_date := curr.report_date
         severity := if curr.failed_jobs > 3 * p.failed_jobs then "HIGH" else "MEDIUM"
         type_ := "failed_job_spike"
         metric := some "failed_jobs"
         previous_value := some (p.failed_jobs : ℚ)
         current_value := some (curr.failed_jobs : ℚ)
         change_pct := none
         description := none }]
    else []

/-- The tracked numeric metrics of the swing rule, as a tagged list of
accessors. -/
def swingMetrics : List (String × (DailySummary → ℚ)) :=
  [("veeam_tb", fun s => s.veeam_tb),
   ("wasabi_active_tb", fun s => s.wasabi_active_tb),
   ("total_cost", fun s => s.total_cost)]

/-- Modelled from the spec: the sudden-metric-swing rule — no-op without
a prior date; a day-over-day change past 50 percent is LOW, past 100
percent MEDIUM. -/
def swingAnomalies (prev : Option DailySummary) (curr : DailySummary) :
    List Anomaly :=
  match prev with
  | none => []
  | some p =>
    swingMetrics.filterMap (fun m =>
      let prevValue := m.2 p
      let currValue := m.2 curr
      let change := (currValue - prevValue) / max |prevValue| epsilon * 100
      if |change| > 50 then
        some { report_date := curr.report_date
               severity := if |change| > 100 then "MEDIUM" else "LOW"
               type_ := "metric_swing"
               metric := some m.1
               previous_value := some prevValue
               current_value := some currValue
               change_pct := some change
               description := none }
      else none)

/-- Modelled from the spec: the missing Anomaly Detector — all five
rules over the newly computed metrics and the prior date's stored
summary, day-over-day rules degrading to no-ops when the prior date is
absent. -/
def detectAnomalies (cfg : Settings) (prev : Option DailySummary)
    (curr : DailySummary) (sites : List SiteRecord)
    (bdrs : List BdrRecord) : List Anomaly :=
  lowDiskAnomalies cfg bdrs ++
  highDiscrepancyAnomalies cfg sites ++
  highDeletedAnomalies cfg sites ++
  failedJobSpikeAnomalies prev curr ++
  swingAnomalies prev curr

/-! ### Persistence Sink and pipeline run (spec-modelled) -/

/-- All rows the pipeline stores for one report date. -/
structure DayRows where
  sites : List SiteRecord
  bdrs : List BdrRecord
  buckets : List BucketRecord
  summary : DailySummary
deriving DecidableEq

/-- Modelled from the spec: the relational store, keyed by report date —
per-date rows and per-date anomaly lists. -/
structure Store where
  days : List (Int × DayRows)
  anomalies : List (Int × List Anomaly)
deriving DecidableEq

/-- The stored rows for a report date, if any. -/
def lookupDay (d : Int) (st : Store) : Option DayRows :=
  (st.days.find? (fun p => p.1 == d)).map (fun p => p.2)

/-- The stored anomalies for a report date. -/
def lookupAnomalies (d : Int) (st : Store) : List Anomaly :=
  ((st.anomalies.find? (fun p => p.1 == d)).map (fun p => p.2)).getD []

/-- Modelled from the spec: upsert-by-natural-key — any prior rows for
the date are replaced. -/
def upsertDay (d : Int) (rows : DayRows) (st : Store) : Store :=
  { st with days := (d, rows) :: st.days.filter (fun p => p.1 != d) }

/-- Modelled from the spec: delete-and-replace semantics for the
anomalies of one report date. -/
def replaceAnomalies (d : Int) (anoms : List Anomaly) (st : Store) : Store :=
  { st with anomalies := (d, anoms) :: st.anomalies.filter (fun p => p.1 != d) }

/-- Modelled from the spec: the Metrics Computer stage of a run — all
derived rows for the date, computed from the raw inputs alone. -/
def pipelineRows (cfg : Settings) (d : Int) (raw : RawInputs) : DayRows :=
  let sites := computeSiteRecords cfg d raw
  let bdrs := raw.bdr_rows.map (mkBdrRecord d)
  { sites, bdrs
    buckets := raw.bucket_rows.map (mkBucketRecord cfg d)
    summary := computeDailySummary cfg d sites bdrs }

/-- Modelled from the spec: the Anomaly Detector stage of a run —
anomalies for the date from the newly computed rows and the previous
date's stored summary. -/
def pipelineAnomalies (cfg : Settings) (d : Int) (raw : RawInputs)
    (st : Store) : List Anomaly :=
  let rows := pipelineRows cfg d raw
  detectAnomalies cfg ((lookupDay (d - 1) st).map (fun r => r.summary))
    rows.summary rows.sites rows.bdrs

/-- Modelled from the spec: one full pipeline run for a report date —
compute all derived rows from the raw inputs, detect anomalies against
the previous date's stored summary, then upsert the rows and replace the
date's anomalies. -/
def runPipeline (cfg : Settings) (d : Int) (raw : RawInputs) (st : Store) :
    Store :=
  replaceAnomalies d (pipelineAnomalies cfg d raw st)
    (upsertDay d (pipelineRows cfg d raw) st)

/-! ### Trends page chart data (src/frontend/src/pages/Sites.tsx, Trends) -/

/-- The metric selector of the Trends page. -/
inductive MetricKey where
  | storage
  | cost
  | discrepancy
  | success_rate
deriving DecidableEq

/-- A point of the Trends chart: only the fields the selected metric
sets are present; the success_rate case omits its field when the day has
no jobs. -/
structure ChartPoint where
  date : Int
  veeam_tb : Option ℚ
  wasabi_active_tb : Option ℚ
  total_cost : Option ℚ
  discrepancy_pct : Option ℚ
  success_rate : Option ℚ
deriving DecidableEq

/-- The per-summary body of Trends.chartData (Sites.tsx lines 314-348):
a point with the date, plus the fields of the selected metric; in the
success_rate case the field is set only when total_jobs > 0. -/
def chartPoint (metric : MetricKey) (d : DailySummary) : ChartPoint :=
  let point : ChartPoint :=
    { date := d.report_date
      veeam_tb := none, wasabi_active_tb := none, total_cost := none
      discrepancy_pct := none, success_rate := none }
  match metric with
  | .storage =>
    { point with veeam_tb := some d.veeam_tb
                 wasabi_active_tb := some d.wasabi_active_tb }
  | .cost => { point with total_cost := some d.total_cost }
  | .discrepancy => { point with discrepancy_pct := some d.discrepancy_pct }
  | .success_rate =>
    if d.total_jobs > 0 then
      let rate := (d.successful_jobs : ℚ) / (d.total_jobs : ℚ) * 100
      { point with success_rate := some rate }
    else point

/-- Trends.chartData: one point per daily summary. -/
def chartData (metric : MetricKey) (dailyData : List DailySummary) :
    List ChartPoint :=
  dailyData.map (chartPoint metric)

/-! ### Dashboard page (src/frontend/src/pages/Dashboard.tsx) -/

/-- Mirrors the DashboardKpis interface of src/frontend/src/types/index.ts. -/
structure DashboardKpis where
  total_veeam_tb : ℚ
  total_wasabi_tb : ℚ
  discrepancy_pct : ℚ
  total_cost : ℚ
  active_issues : ℚ
deriving DecidableEq

/-- JavaScript property access on a DashboardKpis value, total over
field names: the five declared fields yield their value, anything else
is undefined. -/
def DashboardKpis.get (k : DashboardKpis) (field : String) : JsProp :=
  if field = "total_veeam_tb" then some (.num k.total_veeam_tb)
  else if field = "total_wasabi_tb" then some (.num k.total_wasabi_tb)
  else if field = "discrepancy_pct" then some (.num k.discrepancy_pct)
  else if field = "total_cost" then some (.num k.total_cost)
  else if field = "active_issues" then some (.num k.active_issues)
  else none

/-- JavaScript property access on a DailySummary value, total over field
names: the fifteen declared fields yield their value, anything else is
undefined. -/
def DailySummary.get (d : DailySummary) (field : String) : JsProp :=
  if field = "report_date" then some (.str (toString d.report_date))
  else if field = "veeam_tb" then some (.num d.veeam_tb)
  else if field = "wasabi_active_tb" then some (.num d.wasabi_active_tb)
  else if field = "wasabi_deleted_tb" then some (.num d.wasabi_deleted_tb)
  else if field = "discrepancy_pct" then some (.num d.discrepancy_pct)
  else if field = "total_cost" then some (.num d.total_cost)
  else if field = "low_disk_count" then some (.num d.low_disk_count)
  else if field = "high_discrepancy_count" then some (.num d.high_discrepancy_count)
  else if field = "high_deleted_count" then some (.num d.high_deleted_count)
  else if field = "failed_job_count" then some (.num d.failed_job_count)
  else if field = "warning_job_count" then some (.num d.warning_job_count)
  else if field = "total_jobs" then some (.num d.total_jobs)
  else if field = "successful_jobs" then some (.num d.successful_jobs)
  else if field = "failed_jobs" then some (.num d.failed_jobs)
  else if field = "warning_jobs" then some (.num d.warning_jobs)
  else none

/-- The nullish-coalescing fallback to 0 applied by the KPI cards; the
fields it is applied to are number-typed, so the string branch is
unreachable there. -/
def jsNumOrZero : JsProp → ℚ
  | some (.num q) => q
  | some (.str _) => 0
  | none => 0

/-- Number.prototype.toFixed(2) on a nonnegative rational. -/
def toFixed2 (q : ℚ) : String :=
  let cents : Int := round (q * 100)
  toString (cents / 100) ++ "." ++
    (if cents % 100 < 10 then "0" else "") ++ toString (cents % 100)

/-- The Wasabi Deleted KPI text (Dashboard.tsx lines 152-157): the
rendered value of kpis.total_wasabi_deleted_tb with the `?? 0`
fallback. -/
def wasabiDeletedKpiText (k : DashboardKpis) : String :=
  toFixed2 (jsNumOrZero (k.get "total_wasabi_deleted_tb")) ++ " TB"

/-- A point of the Dashboard cost chart. -/
structure CostPoint where
  date : Int
  active_cost : JsProp
  deleted_cost : JsProp
deriving DecidableEq

/-- The per-summary body of Dashboard.costTrendData (Dashboard.tsx lines
53-60): reads active_cost and deleted_cost off the daily summary. -/
def costTrendPoint (s : DailySummary) : CostPoint :=
  { date := s.report_date
    active_cost := s.get "active_cost"
    deleted_cost := s.get "deleted_cost" }

/-- Dashboard.costTrendData: one cost point per daily summary. -/
def costTrendData (summaries : List DailySummary) : List CostPoint :=
  summaries.map costTrendPoint

/-! ### Issues page sort (src/unnamed/part_002, Issues) -/

/-- Mirrors the Issue interface of src/frontend/src/types/index.ts
(`type` is a Lean keyword, so the field is named type_). -/
structure Issue where
  id : ℚ
  report_date : String
  site_code : Option String
  severity : String
  type_ : String
  description : Option String
  detected_date : String
deriving DecidableEq

/-- JavaScript property access a[sortBy] on an Issue: declared fields
yield their value (null-valued optionals yield none, which the page's
loose == null test identifies with undefined), anything else is
undefined. -/
def Issue.get (i : Issue) (field : String) : JsProp :=
  if field = "id" then some (.num i.id)
  else if field = "report_date" then some (.str i.report_date)
  else if field = "site_code" then i.site_code.map .str
  else if field = "severity" then some (.str i.severity)
  else if field = "type" then some (.str i.type_)
  else if field = "description" then i.description.map .str
  else if field = "detected_date" then some (.str i.detected_date)
  else none

/-- The sort direction of the Issues page. -/
inductive SortDirection where
  | asc
  | desc
deriving DecidableEq

/-- The comparator of Issues.filteredIssues (part_002 lines 294-304):
nulls compare before the direction flip (null sorts last either way),
non-null values as strings via localeCompare, the result negated for
descending order. -/
def issueCompare (sortDir : SortDirection) (sortBy : String) (a b : Issue) :
    Int :=
  let aVal := a.get sortBy
  let bVal := b.get sortBy
  match aVal, bVal with
  | none, none => 0
  | none, some _ => 1
  | some _, none => -1
  | some x, some y =>
    let cmp := localeCompare (jsToString x) (jsToString y)
    match sortDir with
    | .asc => cmp
    | .desc => -cmp

/-- The comparator as a relation: a sorts no later than b. -/
def issueSortLe (sortDir : SortDirection) (sortBy : String) (a b : Issue) :
    Prop :=
  issueCompare sortDir sortBy a b ≤ 0

instance (sortDir : SortDirection) (sortBy : String) :
    DecidableRel (issueSortLe sortDir sortBy) := fun a b => by
  unfold issueSortLe; infer_instance

/-- Array.prototype.sort with the page's comparator, embedded as a
comparison sort ordered by the comparator. -/
def sortIssues (sortDir : SortDirection) (sortBy : String)
    (issues : List Issue) : List Issue :=
  issues.insertionSort (issueSortLe sortDir sortBy)

/-- An issue with numeric id 9, for the lexicographic-order conjunct. -/
def issueNine : Issue :=
  { id := 9, report_date := "2026-01-01", site_code := none,
    severity := "HIGH", type_ := "low_disk", description := none,
    detected_date := "2026-01-01" }

/-- An issue with numeric id 10, otherwise equal to issueNine. -/
def issueTen : Issue := { issueNine with id := 10 }

/-! ### Settings form (src/unnamed/part_003, Settings) -/

/-- The keys of the Settings form (keyof SettingsType). -/
inductive SettingsKey where
  | wasabi_cost_per_tb
  | sales_tax_rate
  | discrepancy_threshold_pct
  | low_disk_threshold_pct
  | deleted_ratio_threshold
deriving DecidableEq

/-- A JavaScript number as the form may hold it: NaN or an actual
number. -/
inductive JsNumber where
  | nan
  | val (q : ℚ)
deriving DecidableEq

/-- The isNaN test applied by handleChange. -/
def JsNumber.isNaN : JsNumber → Bool
  | .nan => true
  | .val _ => false

/-- The form state of the Settings page. -/
structure SettingsForm where
  wasabi_cost_per_tb : JsNumber
  sales_tax_rate : JsNumber
  discrepancy_threshold_pct : JsNumber
  low_disk_threshold_pct : JsNumber
  deleted_ratio_threshold : JsNumber
deriving DecidableEq

/-- The computed-key spread update of handleChange. -/
def SettingsForm.set (f : SettingsForm) (k : SettingsKey) (v : JsNumber) :
    SettingsForm :=
  match k with
  | .wasabi_cost_per_tb => { f with wasabi_cost_per_tb := v }
  | .sales_tax_rate => { f with sales_tax_rate := v }
  | .discrepancy_threshold_pct => { f with discrepancy_threshold_pct := v }
  | .low_disk_threshold_pct => { f with low_disk_threshold_pct := v }
  | .deleted_ratio_threshold => { f with deleted_ratio_threshold := v }

/-- Settings.handleChange (part_003 lines 33-39): the parseFloat result
of the input text is stored, with NaN replaced by 0. -/
def handleChange (f : SettingsForm) (k : SettingsKey) (parsed : JsNumber) :
    SettingsForm :=
  f.set k (if parsed.isNaN then .val 0 else parsed)

/-- A sequence of input-change events applied to a form state. -/
def applyChanges (f : SettingsForm) (events : List (SettingsKey × JsNumber)) :
    SettingsForm :=
  events.foldl (fun acc e => handleChange acc e.1 e.2) f

/-- Every field of the form state is an actual number (not NaN). -/
def SettingsForm.allNumbers (f : SettingsForm) : Prop :=
  f.wasabi_cost_per_tb ≠ .nan ∧ f.sales_tax_rate ≠ .nan ∧
  f.discrepancy_threshold_pct ≠ .nan ∧ f.low_disk_threshold_pct ≠ .nan ∧
  f.deleted_ratio_threshold ≠ .nan

instance (f : SettingsForm) : Decidable f.allNumbers := by
  unfold SettingsForm.allNumbers; infer_instance

/-- The initial form state of the Settings page (all fields 0). -/
def initialForm : SettingsForm :=
  { wasabi_cost_per_tb := .val 0
    sales_tax_rate := .val 0
    discrepancy_threshold_pct := .val 0
    low_disk_threshold_pct := .val 0
    deleted_ratio_threshold := .val 0 }

/-! ### Pipeline trigger surface (src/unnamed/part_003, PipelineCard) -/

/-- The run states the trigger surface distinguishes. -/
inductive RunState where
  | running
  | completed
  | completedWithWarnings
  | failed
  | noRuns
deriving DecidableEq

/-- Modelled from the spec: the missing trigger endpoint's admission
check — a manual trigger is rejected with HTTP 409 while a run is
"running", otherwise a new run starts. -/
def triggerPipelineRun (current : RunState) : Except Nat RunState :=
  if current = .running then .error 409 else .ok .running

/-- PipelineCard.handleTrigger (part_003 lines 236-257): the message
shown when a trigger fails, by response status. -/
def triggerErrorMessage (status : Nat) (detail : Option String) : String :=
  if status = 409 then "Pipeline is already running"
  else detail.getD "Failed to start pipeline"

/-- Modelled from the spec: the user-visible label of a run outcome
(the frontend shows the backend status string verbatim). -/
def runStateLabel : RunState → String
  | .running => "running"
  | .completed => "completed"
  | .completedWithWarnings => "completed with warnings"
  | .failed => "failed"
  | .noRuns => "no_runs"

/-! ### Theorems -/

/-- C1: success_rate_pct is null (not zero) when total_jobs = 0 and
equals successful_jobs / total_jobs * 100 when total_jobs > 0 — both for
the per-site record and for the success-rate series of the Trends chart,
which omits its point exactly when the day's total_jobs = 0. -/
theorem success_rate_null_iff_no_jobs :
    (∀ successful total : ℕ,
      (successRatePct successful total = none ↔ total = 0) ∧
      (0 < total →
        successRatePct successful total =
          some ((successful : ℚ) / (total : ℚ) * 100))) ∧
    (∀ (cfg : Settings) (date : Int) (code : String) (raw : RawInputs),
      (mkSiteRecord cfg date code raw).success_rate_pct =
        successRatePct (mkSiteRecord cfg date code raw).successful_jobs
          (mkSiteRecord cfg date code raw).total_jobs) ∧
    (∀ d : DailySummary,
      ((chartPoint .success_rate d).success_rate = none ↔ d.total_jobs = 0) ∧
      (0 < d.total_jobs →
        (chartPoint .success_rate d).success_rate =
          some ((d.successful_jobs : ℚ) / (d.total_jobs : ℚ) * 100))) := by
  refine ⟨fun successful total => ⟨?_, ?_⟩, fun cfg date code raw => rfl,
    fun d => ⟨?_, ?_⟩⟩
  · constructor
    · intro hnone
      by_contra hne
      have hpos : 0 < total := Nat.pos_of_ne_zero hne
      simp [successRatePct, hpos] at hnone
    · intro h0
      simp [successRatePct, h0]
  · intro h
    simp [successRatePct, h]
  · constructor
    · intro hnone
      by_contra hne
      have hpos : 0 < d.total_jobs := Nat.pos_of_ne_zero hne
      simp [chartPoint, hpos] at hnone
    · intro h0
      simp [chartPoint, h0]
  · intro h
    simp [chartPoint, h]

/-- C1 witness: at 3 successful of 4 jobs the rate is 75 percent, and at
0 jobs the chart point is omitted. -/
theorem success_rate_null_iff_no_jobs_witness :
    successRatePct 3 4 = some ((3 : ℚ) / (4 : ℚ) * 100) :=
  (success_rate_null_iff_no_jobs.1 3 4).2 (by decide)

/-- C2: for nonnegative inputs the discrepancy equals
abs(veeam − wasabi) / max(veeam, wasabi, epsilon) * 100, the divisor is
always positive, and with both inputs zero the result is exactly 0. -/
theorem discrepancy_guarded :
    ∀ eps veeam_tb wasabi_active_tb : ℚ,
      0 < eps → 0 ≤ veeam_tb → 0 ≤ wasabi_active_tb →
      (discrepancyPct eps veeam_tb wasabi_active_tb =
        |veeam_tb - wasabi_active_tb| /
          max veeam_tb (max wasabi_active_tb eps) * 100) ∧
      0 < max veeam_tb (max wasabi_active_tb eps) ∧
      (veeam_tb = 0 → wasabi_active_tb = 0 →
        discrepancyPct eps veeam_tb wasabi_active_tb = 0) := by
  intro eps veeam wasabi heps hv hw
  refine ⟨rfl, ?_, ?_⟩
  · exact lt_of_lt_of_le heps ((le_max_right wasabi eps).trans
      (le_max_right veeam (max wasabi eps)))
  · intro h1 h2
    subst h1; subst h2
    simp [discrepancyPct]

/-- C2 witness: with epsilon 1/10000 and both inputs zero, the
discrepancy is 0 and the divisor is positive. -/
theorem discrepancy_guarded_witness :
    discrepancyPct (1/10000) 0 0 = 0 ∧
    (0 : ℚ) < max 0 (max 0 (1/10000)) :=
  ⟨(discrepancy_guarded (1/10000) 0 0 (by norm_num) le_rfl le_rfl).2.2 rfl rfl,
   (discrepancy_guarded (1/10000) 0 0 (by norm_num) le_rfl le_rfl).2.1⟩

/-- C3: each bucket's active and deleted costs follow
storage_tb * cost_per_tb * (1 + tax_rate) with the parameters taken from
Settings, total_cost is their sum, and at storage 10 TB, 6.99 per TB,
6.85 percent tax the cost is exactly 10 * 6.99 * 1.0685 = 74.68815. -/
theorem bucket_cost_formula :
    (∀ (cfg : Settings) (date : Int) (r : BucketRaw),
      (mkBucketRecord cfg date r).active_cost =
        cost (mkBucketRecord cfg date r).active_tb
          cfg.wasabi_cost_per_tb cfg.sales_tax_rate ∧
      (mkBucketRecord cfg date r).deleted_cost =
        cost (mkBucketRecord cfg date r).deleted_tb
          cfg.wasabi_cost_per_tb cfg.sales_tax_rate ∧
      (mkBucketRecord cfg date r).total_cost =
        (mkBucketRecord cfg date r).active_cost +
          (mkBucketRecord cfg date r).deleted_cost) ∧
    cost 10 (699/100) (685/10000) = 10 * (699/100) * (1 + 685/10000) ∧
    cost 10 (699/100) (685/10000) = 1493763 / 20000 := by
  refine ⟨fun cfg date r => ⟨rfl, rfl, rfl⟩, rfl, ?_⟩
  norm_num [cost]

/-- C5: site-code extraction is a single total function shared between
BDR-server and bucket naming, never yields an empty code for a nonempty
name (falling back to the full name), and produces the documented
results on the documented convention. -/
theorem site_code_extraction :
    extractSiteCode "AJC-BDR3" = "AJC" ∧
    extractSiteCode "HBCCORPPS1BDR1" = "HBC" ∧
    (∀ name : String, name ≠ "" → extractSiteCode name ≠ "") ∧
    (∀ (date : Int) (r : BdrRaw),
      (mkBdrRecord date r).site_code = extractSiteCode r.server) ∧
    (∀ (cfg : Settings) (date : Int) (r : BucketRaw),
      (mkBucketRecord cfg date r).site_code = extractSiteCode r.bucket) := by
  refine ⟨rfl, rfl, ?_, fun date r => rfl, fun cfg date r => rfl⟩
  intro name hname
  show (if (siteCodeChars name.toList).isEmpty = true then name
        else String.mk (siteCodeChars name.toList)) ≠ ""
  by_cases h : (siteCodeChars name.toList).isEmpty = true
  · rw [if_pos h]; exact hname
  · rw [if_neg h]
    intro hmk
    apply h
    rw [show ("" : String) = String.mk [] from rfl] at hmk
    injection hmk with hdata
    simpa using hdata

/-- C5 witness: a concrete nonempty name yields a nonempty site code. -/
theorem site_code_extraction_witness : extractSiteCode "AJC-BDR3" ≠ "" :=
  site_code_extraction.2.2.1 "AJC-BDR3" (by decide)

/-- C7: a manual trigger is rejected with HTTP 409 exactly while a run
is "running", and the surfaced message for that conflict is distinct
from the labels of a failed run and of a run completed with warnings. -/
theorem trigger_conflict_distinct :
    (∀ s : RunState, triggerPipelineRun s = .error 409 ↔ s = .running) ∧
    (∀ detail : Option String,
      triggerErrorMessage 409 detail = "Pipeline is already running") ∧
    triggerErrorMessage 409 none ≠ runStateLabel .failed ∧
    triggerErrorMessage 409 none ≠ runStateLabel .completedWithWarnings := by
  refine ⟨?_, fun detail => rfl, by decide, by decide⟩
  intro s
  cases s <;> simp [triggerPipelineRun]

/-- C8: the Wasabi Deleted KPI reads a field absent from DashboardKpis,
so for every conforming value it renders the 0-fallback text "0.00 TB",
and every cost-trend point reads active_cost and deleted_cost, fields
absent from DailySummary, so both are undefined on every point. -/
theorem dashboard_reads_missing_fields :
    (∀ k : DashboardKpis,
      k.get "total_wasabi_deleted_tb" = none ∧
      wasabiDeletedKpiText k = "0.00 TB") ∧
    (∀ s : DailySummary,
      (costTrendPoint s).active_cost = none ∧
      (costTrendPoint s).deleted_cost = none) ∧
    (∀ summaries : List DailySummary, ∀ p ∈ costTrendData summaries,
      p.active_cost = none ∧ p.deleted_cost = none) := by
  refine ⟨fun k => ⟨rfl, ?_⟩, fun s => ⟨rfl, rfl⟩, ?_⟩
  · show toFixed2 (jsNumOrZero none) ++ " TB" = "0.00 TB"
    have h0 : jsNumOrZero none = 0 := rfl
    rw [h0]
    have h1 : round ((0 : ℚ) * 100) = 0 := by norm_num
    unfold toFixed2
    rw [h1]
    norm_num
    rfl
  · intro summaries p hp
    obtain ⟨s, _, rfl⟩ := List.mem_map.mp hp
    exact ⟨rfl, rfl⟩

/-- C8 witness: membership instance of the cost-trend conjunct at a
concrete summary list. -/
theorem dashboard_reads_missing_fields_witness :
    (costTrendPoint (emptySummary 0)).active_cost = none ∧
    (costTrendPoint (emptySummary 0)).deleted_cost = none :=
  dashboard_reads_missing_fields.2.1 (emptySummary 0)

/-- C10: handleChange replaces a NaN parse result by 0 before storing,
so from any all-number form state, any sequence of input-change events
leaves every field a non-NaN number; the initial form is all zeros. -/
theorem settings_form_never_nan :
    initialForm.allNumbers ∧
    ∀ (events : List (SettingsKey × JsNumber)) (f : SettingsForm),
      f.allNumbers → (applyChanges f events).allNumbers := by
  refine ⟨by decide, ?_⟩
  intro events
  induction events with
  | nil => intro f hf; exact hf
  | cons e rest ih =>
    intro f hf
    apply ih
    obtain ⟨h1, h2, h3, h4, h5⟩ := hf
    cases hk : e.1 <;> cases hv : e.2 <;>
      simp_all [handleChange, SettingsForm.set, SettingsForm.allNumbers,
        JsNumber.isNaN]

/-- The daily aggregation fold accumulates exactly the per-field sums. -/
theorem foldl_addSite_fields (l : List SiteRecord) (acc : DailySummary) :
    (l.foldl addSite acc).veeam_tb =
      acc.veeam_tb + (l.map (fun s => s.veeam_tb)).sum ∧
    (l.foldl addSite acc).wasabi_active_tb =
      acc.wasabi_active_tb + (l.map (fun s => s.wasabi_active_tb)).sum ∧
    (l.foldl addSite acc).wasabi_deleted_tb =
      acc.wasabi_deleted_tb + (l.map (fun s => s.wasabi_deleted_tb)).sum ∧
    (l.foldl addSite acc).total_cost =
      acc.total_cost + (l.map (fun s => s.total_cost)).sum ∧
    (l.foldl addSite acc).total_jobs =
      acc.total_jobs + (l.map (fun s => s.total_jobs)).sum ∧
    (l.foldl addSite acc).successful_jobs =
      acc.successful_jobs + (l.map (fun s => s.successful_jobs)).sum ∧
    (l.foldl addSite acc).failed_jobs =
      acc.failed_jobs + (l.map (fun s => s.failed_jobs)).sum ∧
    (l.foldl addSite acc).warning_jobs =
      acc.warning_jobs + (l.map (fun s => s.warning_jobs)).sum := by
  induction l generalizing acc with
  | nil => simp
  | cons r l ih =>
    obtain ⟨h1, h2, h3, h4, h5, h6, h7, h8⟩ := ih (addSite acc r)
    simp only [List.foldl_cons, List.map_cons, List.sum_cons]
    refine ⟨?_, ?_, ?_, ?_, ?_, ?_, ?_, ?_⟩
    · rw [h1]; simp only [addSite]; ring
    · rw [h2]; simp only [addSite]; ring
    · rw [h3]; simp only [addSite]; ring
    · rw [h4]; simp only [addSite]; ring
    · rw [h5]; simp only [addSite]; ring
    · rw [h6]; simp only [addSite]; ring
    · rw [h7]; simp only [addSite]; ring
    · rw [h8]; simp only [addSite]; ring

/-- C6: for a date with at least one SiteRecord, every aggregate total
of the DailySummary equals the sum of the corresponding field over the
date's SiteRecords, the aggregate discrepancy is the weighted aggregate
recomputed from the summed storage totals, and the condition counts
count the records triggering each threshold. -/
theorem daily_summary_totals (cfg : Settings) (date : Int)
    (sites : List SiteRecord) (bdrs : List BdrRecord) (hne : sites ≠ []) :
    (computeDailySummary cfg date sites bdrs).veeam_tb =
      (sites.map (fun s => s.veeam_tb)).sum ∧
    (computeDailySummary cfg date sites bdrs).wasabi_active_tb =
      (sites.map (fun s => s.wasabi_active_tb)).sum ∧
    (computeDailySummary cfg date sites bdrs).wasabi_deleted_tb =
      (sites.map (fun s => s.wasabi_deleted_tb)).sum ∧
    (computeDailySummary cfg date sites bdrs).total_cost =
      (sites.map (fun s => s.total_cost)).sum ∧
    (computeDailySummary cfg date sites bdrs).total_jobs =
      (sites.map (fun s => s.total_jobs)).sum ∧
    (computeDailySummary cfg date sites bdrs).successful_jobs =
      (sites.map (fun s => s.successful_jobs)).sum ∧
    (computeDailySummary cfg date sites bdrs).failed_jobs =
      (sites.map (fun s => s.failed_jobs)).sum ∧
    (computeDailySummary cfg date sites bdrs).warning_jobs =
      (sites.map (fun s => s.warning_jobs)).sum ∧
    (computeDailySummary cfg date sites bdrs).discrepancy_pct =
      discrepancyPct epsilon ((sites.map (fun s => s.veeam_tb)).sum)
        ((sites.map (fun s => s.wasabi_active_tb)).sum) ∧
    (computeDailySummary cfg date sites bdrs).failed_job_count =
      (sites.map (fun s => s.failed_jobs)).sum ∧
    (computeDailySummary cfg date sites bdrs).warning_job_count =
      (sites.map (fun s => s.warning_jobs)).sum ∧
    (computeDailySummary cfg date sites bdrs).low_disk_count =
      (bdrs.filter (fun b => b.disk_free_pct < cfg.low_disk_threshold_pct)).length ∧
    (computeDailySummary cfg date sites bdrs).high_discrepancy_count =
      (sites.filter (fun s => s.discrepancy_pct > cfg.discrepancy_threshold_pct)).length ∧
    (computeDailySummary cfg date sites bdrs).high_deleted_count =
      (sites.filter (fun s => deletedOverActive s > cfg.deleted_ratio_threshold)).length := by
  obtain ⟨h1, h2, h3, h4, h5, h6, h7, h8⟩ :=
    foldl_addSite_fields sites (emptySummary date)
  simp only [emptySummary, zero_add] at h1 h2 h3 h4 h5 h6 h7 h8
  simp only [computeDailySummary, emptySummary]
  refine ⟨?_, ?_, ?_, ?_, ?_, ?_, ?_, ?_, ?_, ?_, ?_, ?_, ?_, ?_⟩ <;>
    simp [h1, h2, h3, h4, h5, h6, h7, h8]

/-- C6 witness: the aggregation at a concrete one-site date. -/
theorem daily_summary_totals_witness :
    (computeDailySummary ⟨1, 0, 0, 0, 0⟩ 0
        [mkSiteRecord ⟨1, 0, 0, 0, 0⟩ 0 "AJC" ⟨[], [], []⟩] []).veeam_tb =
      (([mkSiteRecord ⟨1, 0, 0, 0, 0⟩ 0 "AJC" ⟨[], [], []⟩] :
          List SiteRecord).map (fun s => s.veeam_tb)).sum :=
  (daily_summary_totals ⟨1, 0, 0, 0, 0⟩ 0
    [mkSiteRecord ⟨1, 0, 0, 0, 0⟩ 0 "AJC" ⟨[], [], []⟩] []
    (List.cons_ne_nil _ _)).1

/-- localeCompare is nonpositive exactly for lexicographically ordered
arguments. -/
theorem localeCompare_le_zero_iff {s t : String} :
    localeCompare s t ≤ 0 ↔ s ≤ t := by
  unfold localeCompare
  rcases lt_trichotomy s t with h | h | h
  · rw [if_pos h]
    exact iff_of_true (by omega) (le_of_lt h)
  · subst h
    rw [if_neg (lt_irrefl s), if_pos rfl]
    exact iff_of_true (by omega) le_rfl
  · rw [if_neg (not_lt.mpr (le_of_lt h)), if_neg (ne_of_gt h)]
    exact iff_of_false (by omega) (not_le.mpr h)

/-- localeCompare is nonnegative exactly for reverse-ordered
arguments. -/
theorem localeCompare_nonneg_iff {s t : String} :
    0 ≤ localeCompare s t ↔ t ≤ s := by
  unfold localeCompare
  rcases lt_trichotomy s t with h | h | h
  · rw [if_pos h]
    exact iff_of_false (by omega) (not_le.mpr h)
  · subst h
    rw [if_neg (lt_irrefl s), if_pos rfl]
    exact iff_of_true (by omega) le_rfl
  · rw [if_neg (not_lt.mpr (le_of_lt h)), if_neg (ne_of_gt h)]
    exact iff_of_true (by omega) (le_of_lt h)

/-- The Issues comparator relation is total. -/
theorem issueSortLe_total (dir : SortDirection) (key : String) (a b : Issue) :
    issueSortLe dir key a b ∨ issueSortLe dir key b a := by
  unfold issueSortLe issueCompare
  rcases ha : a.get key with _ | x <;> rcases hb : b.get key with _ | y <;>
    simp only [ha, hb]
  · left; omega
  · right; omega
  · left; omega
  · cases dir
    · rcases le_total (jsToString x) (jsToString y) with h | h
      · exact Or.inl (localeCompare_le_zero_iff.mpr h)
      · exact Or.inr (localeCompare_le_zero_iff.mpr h)
    · rcases le_total (jsToString x) (jsToString y) with h | h
      · exact Or.inr (neg_nonpos.mpr (localeCompare_nonneg_iff.mpr h))
      · exact Or.inl (neg_nonpos.mpr (localeCompare_nonneg_iff.mpr h))

/-- The Issues comparator relation is transitive. -/
theorem issueSortLe_trans (dir : SortDirection) (key : String) (a b c : Issue) :
    issueSortLe dir key a b → issueSortLe dir key b c →
      issueSortLe dir key a c := by
  unfold issueSortLe issueCompare
  rcases ha : a.get key with _ | x <;> rcases hb : b.get key with _ | y <;>
    rcases hc : c.get key with _ | z <;> simp only [ha, hb, hc]
  · intro _ _; omega
  · intro h1 _; exact absurd h1 (by omega)
  · intro h1 _; exact absurd h1 (by omega)
  · intro h1 _; exact absurd h1 (by omega)
  · intro _ _; omega
  · intro _ h2; exact absurd h2 (by omega)
  · intro _ _; omega
  · cases dir
    · intro h1 h2
      exact localeCompare_le_zero_iff.mpr
        (le_trans (localeCompare_le_zero_iff.mp h1)
          (localeCompare_le_zero_iff.mp h2))
    · intro h1 h2
      exact neg_nonpos.mpr (localeCompare_nonneg_iff.mpr
        (le_trans (localeCompare_nonneg_iff.mp (neg_nonpos.mp h2))
          (localeCompare_nonneg_iff.mp (neg_nonpos.mp h1))))

/-- C9: the Issues client-side sort orders null-key rows after all
non-null rows under both directions (the null check precedes the
direction flip), and compares non-null values as strings via
localeCompare, so the numeric id field orders lexicographically: with
ascending sort, id 10 comes before id 9. -/
theorem issues_sort_nulls_last :
    (∀ (dir : SortDirection) (key : String) (issues : List Issue),
      (sortIssues dir key issues).Perm issues ∧
      (sortIssues dir key issues).Pairwise
        (fun a b => a.get key = none → b.get key = none)) ∧
    sortIssues .asc "id" [issueNine, issueTen] = [issueTen, issueNine] ∧
    issueNine.id < issueTen.id := by
  have h9 : jsToString (JsValue.num 9) = "9" := by
    simp only [jsToString]
    rw [if_pos (by norm_num : ((9 : ℚ)).den = 1),
      show ((9 : ℚ)).num = 9 by norm_num]
    decide
  have h10 : jsToString (JsValue.num 10) = "10" := by
    simp only [jsToString]
    rw [if_pos (by norm_num : ((10 : ℚ)).den = 1),
      show ((10 : ℚ)).num = 10 by norm_num]
    decide
  have hlc : localeCompare "9" "10" = 1 := by
    unfold localeCompare
    rw [if_neg (by rw [String.lt_iff_toList_lt]; decide :
          ¬ ("9" : String) < "10"),
        if_neg (by decide : ¬ ("9" : String) = "10")]
  have hcmp : issueCompare .asc "id" issueNine issueTen = 1 := by
    unfold issueCompare
    rw [show issueNine.get "id" = some (.num 9) from rfl,
        show issueTen.get "id" = some (.num 10) from rfl]
    simp only [h9, h10, hlc]
  refine ⟨?_, ?_, by norm_num [issueNine, issueTen]⟩
  · intro dir key issues
    haveI : IsTotal Issue (issueSortLe dir key) := ⟨issueSortLe_total dir key⟩
    haveI : IsTrans Issue (issueSortLe dir key) := ⟨issueSortLe_trans dir key⟩
    refine ⟨List.perm_insertionSort _ _, ?_⟩
    have hs := List.sorted_insertionSort (issueSortLe dir key) issues
    refine hs.imp ?_
    intro a b hab hnone
    rcases hob : b.get key with _ | v
    · rfl
    · exfalso
      unfold issueSortLe issueCompare at hab
      simp only [hnone, hob] at hab
      omega
  · have hneg : ¬ issueSortLe .asc "id" issueNine issueTen := by
      unfold issueSortLe
      rw [hcmp]
      omega
    unfold sortIssues
    simp only [List.insertionSort, List.orderedInsert]
    rw [if_neg hneg]

/-- C9 witness: the sort of the empty issue list permutes it. -/
theorem issues_sort_nulls_last_witness :
    (sortIssues SortDirection.asc "id" []).Perm [] :=
  (issues_sort_nulls_last.1 SortDirection.asc "id" []).1

/-- C10 witness: a NaN input event on the tax-rate field leaves the form
all numbers. -/
theorem settings_form_never_nan_witness :
    (applyChanges initialForm [(SettingsKey.sales_tax_rate, JsNumber.nan)]).allNumbers :=
  settings_form_never_nan.2 [(SettingsKey.sales_tax_rate, JsNumber.nan)]
    initialForm settings_form_never_nan.1

/-- Two stores with equal components are equal. -/
theorem Store.eq_of_components {s t : Store} (hd : s.days = t.days)
    (ha : s.anomalies = t.anomalies) : s = t := by
  cases s; cases t; simp_all

/-- Looking one key up is unaffected by filtering a different key out. -/
theorem find?_filter_ne {β : Type} (k d : Int) (h : k ≠ d)
    (l : List (Int × β)) :
    (l.filter (fun p => p.1 != d)).find? (fun p => p.1 == k) =
      l.find? (fun p => p.1 == k) := by
  induction l with
  | nil => rfl
  | cons a l ih =>
    by_cases had : a.1 = d
    · rw [List.filter_cons_of_neg (by simp [had]),
        List.find?_cons_of_neg _ (by simp [had]; exact fun hdk => h hdk.symm)]
      exact ih
    · rw [List.filter_cons_of_pos (by simp [had])]
      by_cases hak : a.1 = k
      · rw [List.find?_cons_of_pos _ (by simp [hak]),
          List.find?_cons_of_pos _ (by simp [hak])]
      · rw [List.find?_cons_of_neg _ (by simp [hak]),
          List.find?_cons_of_neg _ (by simp [hak])]
        exact ih

/-- The days component written by one run. -/
theorem runPipeline_days (cfg : Settings) (d : Int) (raw : RawInputs)
    (st : Store) :
    (runPipeline cfg d raw st).days =
      (d, pipelineRows cfg d raw) :: st.days.filter (fun p => p.1 != d) := rfl

/-- The anomalies component written by one run. -/
theorem runPipeline_anomalies (cfg : Settings) (d : Int) (raw : RawInputs)
    (st : Store) :
    (runPipeline cfg d raw st).anomalies =
      (d, pipelineAnomalies cfg d raw st) ::
        st.anomalies.filter (fun p => p.1 != d) := rfl

/-- A run for date d leaves the lookup of the previous date unchanged. -/
theorem lookupDay_prev_runPipeline (cfg : Settings) (d : Int)
    (raw : RawInputs) (st : Store) :
    lookupDay (d - 1) (runPipeline cfg d raw st) = lookupDay (d - 1) st := by
  unfold lookupDay
  rw [runPipeline_days,
    List.find?_cons_of_neg _ (by simp; omega),
    find?_filter_ne (d - 1) d (by omega)]

/-- C4: re-running the pipeline for the same report date and the same
raw inputs reproduces the stored state exactly — the recomputed
SiteRecord/DailySummary rows replace the old ones and the date's
anomalies are deleted and replaced, so after any run the store holds
exactly one row-set entry and one anomaly entry for that date. -/
theorem pipeline_run_idempotent :
    ∀ (cfg : Settings) (d : Int) (raw : RawInputs) (st : Store),
      runPipeline cfg d raw (runPipeline cfg d raw st) =
        runPipeline cfg d raw st ∧
      ((runPipeline cfg d raw st).days.filter
        (fun p => p.1 == d)).length = 1 ∧
      ((runPipeline cfg d raw st).anomalies.filter
        (fun p => p.1 == d)).length = 1 := by
  intro cfg d raw st
  have hA : pipelineAnomalies cfg d raw (runPipeline cfg d raw st) =
      pipelineAnomalies cfg d raw st := by
    unfold pipelineAnomalies
    rw [lookupDay_prev_runPipeline]
  refine ⟨?_, ?_, ?_⟩
  · apply Store.eq_of_components
    · rw [runPipeline_days, runPipeline_days,
        List.filter_cons_of_neg (by simp)]
      congr 1
      rw [List.filter_filter]
      simp
    · rw [runPipeline_anomalies, runPipeline_anomalies, hA,
        List.filter_cons_of_neg (by simp)]
      congr 1
      rw [List.filter_filter]
      simp
  · rw [runPipeline_days, List.filter_cons_of_pos (by simp),
      List.filter_filter]
    simp
  · rw [runPipeline_anomalies, List.filter_cons_of_pos (by simp),
      List.filter_filter]
    simp

/-- C4 witness: idempotence instance at a concrete run on the empty
store and empty raw inputs. -/
theorem pipeline_run_idempotent_witness :
    runPipeline ⟨1, 0, 0, 0, 0⟩ 0 ⟨[], [], []⟩
        (runPipeline ⟨1, 0, 0, 0, 0⟩ 0 ⟨[], [], []⟩ ⟨[], []⟩) =
      runPipeline ⟨1, 0, 0, 0, 0⟩ 0 ⟨[], [], []⟩ ⟨[], []⟩ :=
  (pipeline_run_idempotent ⟨1, 0, 0, 0, 0⟩ 0 ⟨[], [], []⟩ ⟨[], []⟩).1

end VeeamAudit
